import Mathlib

/-!
Shallow embedding of the SpeedLimit-Project decision pipeline.

The embedding covers the four services of the repository:
* `RouterComponent/api.py` — the pure threshold router;
* `AirQualityLLM/agent.py` and `AirQualityLLM/api.py` — the policy agent
  (the external completion provider is a parameter: its outcome is an
  `Except` value handed to the agent);
* `ModelInference/api.py` — the risk-guided speed search (the fitted
  model, scaler and imputer are parameters: arbitrary functions over the
  feature vector, loaded or not via `Option`);
* `SpeedLimitController/api.py` — the orchestrating controller (the three
  outbound HTTP calls are parameters returning `Except`, an `error`
  standing for a transport failure or unparseable body).

Machine floats of the Python code are modelled as rationals; Python dicts
of sensor readings as association lists (a dict has distinct keys, which
the theorems do not need).  A FastAPI `HTTPException` is an
`Except.error`.
-/

namespace SpeedLimit

/-! ### RouterComponent/api.py -/

structure WeatherInput where
  illuminance_lux : ℚ
  water_level_micrometers : ℚ
  temperature_celsius : ℚ
  deriving DecidableEq, Repr

/-- One entry of the `reasons` list built by `check_weather_conditions`.
The Python code appends message strings; the messages interpolate the
live lux value, so they are modelled as tags rendered by `reasonText`. -/
inductive ReasonTag where
  | darkness
  | blackIce
  | safe
  deriving DecidableEq, Repr

structure RouterDecision where
  requires_neural_network : Bool
  reason : List ReasonTag
  deriving DecidableEq, Repr

def THRESHOLD_LUX : ℚ := 500
def THRESHOLD_WATER : ℚ := 1000
def THRESHOLD_TEMP : ℚ := 0

/-- Function `check_weather_conditions` of `RouterComponent/api.py` (lines 24-51). -/
def check_weather_conditions (data : WeatherInput) : RouterDecision :=
  let is_dark : Bool := data.illuminance_lux < THRESHOLD_LUX
  let is_black_ice : Bool :=
    data.water_level_micrometers > THRESHOLD_WATER ∧
      data.temperature_celsius < THRESHOLD_TEMP
  let reasons : List ReasonTag :=
    (if is_dark then [ReasonTag.darkness] else []) ++
      (if is_black_ice then [ReasonTag.blackIce] else [])
  if is_dark || is_black_ice then
    { requires_neural_network := true, reason := reasons }
  else
    { requires_neural_network := false, reason := [ReasonTag.safe] }

/-- Rendering of a reason tag to its message text (the darkness message of
the Python code also interpolates the lux reading; that numeric
interpolation is abstracted away, no claim depends on it). -/
def reasonText : ReasonTag → String
  | ReasonTag.darkness => "Darkness detected"
  | ReasonTag.blackIce => "Black Ice danger detected"
  | ReasonTag.safe => "Conditions are safe (sufficient light, no black ice)."

def renderReasons (l : List ReasonTag) : String :=
  String.intercalate " & " (l.map reasonText)

/-! ### AirQualityLLM/agent.py and AirQualityLLM/api.py -/

/-- The schema-validated decision object (`SpeedReductionResponse` of
`agent.py`): an integer reduction and a reason text. -/
structure ReductionDecision where
  reduction_kmh : ℤ
  reason : String
  deriving DecidableEq, Repr

/-- The fallback dict returned by `AirQualityAgent.get_speed_reduction`
when the completion call raises (agent.py lines 71-77). -/
def fallbackDecision : ReductionDecision :=
  { reduction_kmh := 0
    reason := "Error connecting to AI Agent. Defaulting to safe baseline." }

/-- Method `AirQualityAgent.get_speed_reduction` (agent.py lines 26-77).  The
outcome of the structured-completion call is the `provider` argument: a
schema-valid parsed decision, or an error (timeout, network failure,
schema-validation failure — all surface as the caught exception). -/
def get_speed_reduction (provider : Except String ReductionDecision) :
    ReductionDecision :=
  match provider with
  | Except.ok r => r
  | Except.error _ => fallbackDecision

structure ReductionResponse where
  aqi_received : ℤ
  reduction_kmh : ℤ
  reason : String
  recommended_speed_limit : ℤ
  deriving DecidableEq, Repr

def BASELINE_SPEED : ℤ := 80

/-- Function `calculate_reduction` of `AirQualityLLM/api.py` (lines 27-48). -/
def calculate_reduction (aqi : ℤ)
    (provider : Except String ReductionDecision) : ReductionResponse :=
  let result := get_speed_reduction provider
  let reduction := result.reduction_kmh
  let final_limit := max 30 (BASELINE_SPEED - reduction)
  { aqi_received := aqi
    reduction_kmh := reduction
    reason := result.reason
    recommended_speed_limit := final_limit }

/-! ### ModelInference/api.py -/

/-- The static sensor-id → feature-type mapping `id_to_type`
(ModelInference/api.py lines 99-108). -/
def id_to_type (id : ℤ) : Option String :=
  if id = 1 ∨ id = 8 ∨ id = 11 then some "W"
  else if id = 2 ∨ id = 9 ∨ id = 12 then some "L"
  else if id = 7 ∨ id = 15 ∨ id = 16 ∨ id = 18 then some "T"
  else if id = 3 ∨ id = 10 then some "N"
  else if id = 4 then some "H"
  else if id = 5 ∨ id = 13 then some "WD"
  else if id = 6 ∨ id = 14 then some "WS"
  else if id = 17 then some "AP"
  else none

/-- The values accumulated for one feature column by the reading loop of
`find_safe_speed_limit` (api.py lines 117-121): iterate the readings and
append each value whose sensor id maps to this column's type. -/
def collectVals (readings : List (ℤ × ℚ)) (col : String) : List ℚ :=
  readings.foldl
    (fun acc p =>
      match id_to_type p.1 with
      | some t => if t = col then acc ++ [p.2] else acc
      | none => acc)
    []

/-- The per-column mean (api.py lines 123-126): `some` of the arithmetic
mean when at least one reading mapped to the column, `none` (the row's
`np.nan`) otherwise. -/
def sensorMean (readings : List (ℤ × ℚ)) (col : String) : Option ℚ :=
  let vals := collectVals readings col
  if vals = [] then none else some (vals.sum / vals.length)

/-- Row `input_values` of `find_safe_speed_limit`: a map from feature
column to its (possibly absent) value. -/
def input_values (readings : List (ℤ × ℚ)) : String → Option ℚ :=
  fun col => sensorMean readings col

/-- Translation of `pd.DataFrame([input_values], columns=feature_cols)`: the trial row
laid out in exactly the order of the loaded feature-column list. -/
def trialVector (feature_cols : List String) (vals : String → Option ℚ) :
    List (Option ℚ) :=
  feature_cols.map vals

/-- Imputation step (api.py lines 146-149): apply the loaded imputer when
present, otherwise `fillna(0)`. -/
def imputeVec (imputer : Option (List (Option ℚ) → List ℚ))
    (v : List (Option ℚ)) : List ℚ :=
  match imputer with
  | some f => f v
  | none => v.map (fun x => x.getD 0)

/-- The predicted risk for one candidate speed (api.py lines 138-155):
overwrite `SPEED_LIMIT`, lay the row out in feature-column order, impute,
scale, predict. -/
def riskAt (model : List ℚ → ℚ) (scaler : List ℚ → List ℚ)
    (feature_cols : List String)
    (imputer : Option (List (Option ℚ) → List ℚ))
    (vals : String → Option ℚ) (speed : ℤ) : ℚ :=
  let vals' : String → Option ℚ :=
    fun col => if col = "SPEED_LIMIT" then some (speed : ℚ) else vals col
  model (scaler (imputeVec imputer (trialVector feature_cols vals')))

def candidate_speeds : List ℤ := [130, 120, 110, 100, 90, 80, 70, 60]

/-- The optimization loop of `find_safe_speed_limit` (api.py lines
138-164): walk the candidate speeds, track the lowest risk seen, and
break at the first candidate whose predicted risk is < 1.0.  Returns
`(some accepted, lowest)` on a break, `(none, lowest)` on exhaustion. -/
def optimizeLoop (risk : ℤ → ℚ) : List ℤ → ℚ → Option ℤ × ℚ
  | [], lowest => (none, lowest)
  | s :: rest, lowest =>
    let r := risk s
    let lowest' := if r < lowest then r else lowest
    if r < 1 then (some s, lowest') else optimizeLoop risk rest lowest'

structure SpeedLimitResponse where
  recommended_speed : ℤ
  predicted_risk : ℚ
  safety_status : String
  deriving DecidableEq, Repr

/-- The process-wide artifact bundle loaded at startup (api.py lines
18-73).  Each artifact is `none` when its file was missing. -/
structure Artifacts where
  model : Option (List ℚ → ℚ)
  scaler : Option (List ℚ → List ℚ)
  feature_cols : Option (List String)
  imputer : Option (List (Option ℚ) → List ℚ)

/-- Function `find_safe_speed_limit` of `ModelInference/api.py` (lines 89-177).
`Except.error` models the 503 `HTTPException`. -/
def find_safe_speed_limit (arts : Artifacts) (readings : List (ℤ × ℚ)) :
    Except String SpeedLimitResponse :=
  match arts.model, arts.scaler, arts.feature_cols with
  | some model, some scaler, some feature_cols =>
    if "SPEED_LIMIT" ∈ feature_cols then
      let risk :=
        riskAt model scaler feature_cols arts.imputer (input_values readings)
      match optimizeLoop risk candidate_speeds 999 with
      | (some s, lowest) =>
        Except.ok { recommended_speed := s, predicted_risk := lowest,
                    safety_status := "Safe" }
      | (none, lowest) =>
        Except.ok { recommended_speed := 60, predicted_risk := lowest,
                    safety_status := "Risk High - Lowest Limit Selected" }
    else
      Except.ok { recommended_speed := 80, predicted_risk := 0,
                  safety_status := "Error: SPEED_LIMIT missing in model" }
  | _, _, _ => Except.error "Service not ready. Artifacts missing."

/-! ### SpeedLimitController/api.py -/

structure UserInput where
  temperature_celsius : ℚ
  water_level_micrometers : ℚ
  illuminance_lux : ℚ
  aqi : ℤ
  deriving DecidableEq, Repr

structure FinalSystemDecision where
  final_speed_limit : ℤ
  reason : String
  source_service : String
  deriving DecidableEq, Repr

/-- A parseable JSON body from the router collaborator: each field may be
absent (the controller reads them with `.get(..., default)`). -/
structure RouterJson where
  requires_neural_network : Option Bool
  reason : Option String
  deriving DecidableEq, Repr

/-- Function `map_input_to_sensors` (SpeedLimitController/api.py lines 32-45). -/
def map_input_to_sensors (data : UserInput) : List (ℤ × ℚ) :=
  [(1, data.water_level_micrometers),
   (2, data.illuminance_lux),
   (7, data.temperature_celsius)]

/-- Function `decide_speed_limit` of `SpeedLimitController/api.py` (lines 50-124),
parameterized by the three outbound calls.  An `Except.error` from a call
models any exception of the `try` block around it (transport failure,
unparseable body, missing required response field); `Except.ok` is a
parseable response. -/
def decide_speed_limit
    (routerCall : WeatherInput → Except String RouterJson)
    (inferenceCall : List (ℤ × ℚ) → Except String (ℤ × String))
    (aqCall : ℤ → Except String (ℤ × String))
    (user_input : UserInput) : Except String FinalSystemDecision :=
  match routerCall
      { illuminance_lux := user_input.illuminance_lux
        water_level_micrometers := user_input.water_level_micrometers
        temperature_celsius := user_input.temperature_celsius } with
  | Except.error e =>
    Except.error ("Failed to contact Router Service: " ++ e)
  | Except.ok router_data =>
    let requires_nn := router_data.requires_neural_network.getD false
    let router_reason := router_data.reason.getD "Unknown"
    if requires_nn then
      match inferenceCall (map_input_to_sensors user_input) with
      | Except.error e =>
        Except.error ("Failed to contact Inference Service: " ++ e)
      | Except.ok (speed, status) =>
        Except.ok
          { final_speed_limit := speed
            reason := "Weather Hazard Detected (" ++ router_reason ++
              "). Risk Analysis: " ++ status
            source_service := "Neural Network Inference" }
    else
      match aqCall user_input.aqi with
      | Except.error e =>
        Except.error ("Failed to contact Air Quality Service: " ++ e)
      | Except.ok (limit, reason) =>
        Except.ok
          { final_speed_limit := limit
            reason := "Weather is safe. Adjustment based on Air Quality: " ++
              reason
            source_service := "Air Quality Agent (LLM)" }

/-- The router collaborator as actually deployed: the pure
`check_weather_conditions` behind a healthy transport. -/
def routerServiceOf : WeatherInput → Except String RouterJson :=
  fun w =>
    let d := check_weather_conditions w
    Except.ok { requires_neural_network := some d.requires_neural_network
                reason := some (renderReasons d.reason) }

/-- The inference collaborator as actually deployed: `find_safe_speed_limit`
behind a healthy transport, the controller reading the
`recommended_speed` and `safety_status` fields. -/
def inferenceServiceOf (arts : Artifacts) :
    List (ℤ × ℚ) → Except String (ℤ × String) :=
  fun readings =>
    match find_safe_speed_limit arts readings with
    | Except.ok r => Except.ok (r.recommended_speed, r.safety_status)
    | Except.error e => Except.error e

/-- The air-quality collaborator as actually deployed: `calculate_reduction`
behind a healthy transport, the controller reading the
`recommended_speed_limit` and `reason` fields. -/
def aqServiceOf (provider : ℤ → Except String ReductionDecision) :
    ℤ → Except String (ℤ × String) :=
  fun aqi =>
    let resp := calculate_reduction aqi (provider aqi)
    Except.ok (resp.recommended_speed_limit, resp.reason)

/-- The composed deployment: controller wired to the real router, the real
inference service over artifact bundle `arts`, and the real policy agent
over completion-provider behavior `provider`. -/
def fullSystem (arts : Artifacts)
    (provider : ℤ → Except String ReductionDecision)
    (u : UserInput) : Except String FinalSystemDecision :=
  decide_speed_limit routerServiceOf (inferenceServiceOf arts)
    (aqServiceOf provider) u

/-! ### Helper lemmas -/

/-- Characterization of the optimization loop over a descending candidate
list: a break returns a candidate below the budget that dominates every
candidate below the budget, and exhaustion means no candidate was below
the budget. -/
lemma optimizeLoop_spec (risk : ℤ → ℚ) :
    ∀ (l : List ℤ) (lowest : ℚ), l.Pairwise (fun a b => b ≤ a) →
      (∀ s, (optimizeLoop risk l lowest).1 = some s →
        s ∈ l ∧ risk s < 1 ∧ ∀ t ∈ l, risk t < 1 → t ≤ s) ∧
      ((optimizeLoop risk l lowest).1 = none → ∀ t ∈ l, ¬ risk t < 1) := by
  intro l
  induction l with
  | nil =>
    intro lowest _
    exact ⟨fun s hs => by simp [optimizeLoop] at hs, fun _ t ht => by simp at ht⟩
  | cons a rest ih =>
    intro lowest hpw
    rw [List.pairwise_cons] at hpw
    obtain ⟨hdom, hrest⟩ := hpw
    by_cases hr : risk a < 1
    · refine ⟨fun s hs => ?_, fun hn => ?_⟩
      · simp only [optimizeLoop, hr, if_pos] at hs
        obtain rfl : a = s := by simpa using hs
        refine ⟨List.mem_cons_self _ _, hr, fun t ht _ => ?_⟩
        rcases List.mem_cons.mp ht with h | h
        · exact le_of_eq h
        · exact hdom t h
      · simp [optimizeLoop, hr] at hn
    · have heq : optimizeLoop risk (a :: rest) lowest =
          optimizeLoop risk rest (if risk a < lowest then risk a else lowest) := by
        simp [optimizeLoop, hr]
      obtain ⟨ihs, ihn⟩ :=
        ih (if risk a < lowest then risk a else lowest) hrest
      refine ⟨fun s hs => ?_, fun hn t ht => ?_⟩
      · rw [heq] at hs
        obtain ⟨hmem, hlt, hmax⟩ := ihs s hs
        refine ⟨List.mem_cons_of_mem _ hmem, hlt, fun t ht htlt => ?_⟩
        rcases List.mem_cons.mp ht with h | h
        · exact absurd (h ▸ htlt) hr
        · exact hmax t h htlt
      · rw [heq] at hn
        rcases List.mem_cons.mp ht with h | h
        · exact h ▸ hr
        · exact ihn hn t h

/-- The candidate ladder is descending. -/
lemma candidate_speeds_sorted :
    candidate_speeds.Pairwise (fun a b => b ≤ a) := by
  decide

/-- Any successful response of the inference service carries a speed in
the ladder, or the exhaustion floor 60, or the 80 of the
missing-`SPEED_LIMIT` default. -/
lemma find_safe_ok_speed_mem (arts : Artifacts) (readings : List (ℤ × ℚ))
    (resp : SpeedLimitResponse)
    (h : find_safe_speed_limit arts readings = Except.ok resp) :
    resp.recommended_speed ∈ candidate_speeds ∨
      resp.recommended_speed = 60 ∨ resp.recommended_speed = 80 := by
  obtain ⟨om, osc, ofc, oim⟩ := arts
  rcases om with _ | m
  · exact absurd h (by simp [find_safe_speed_limit])
  rcases osc with _ | sc
  · exact absurd h (by simp [find_safe_speed_limit])
  rcases ofc with _ | fc
  · exact absurd h (by simp [find_safe_speed_limit])
  unfold find_safe_speed_limit at h
  by_cases hmem : "SPEED_LIMIT" ∈ fc
  · simp only [if_pos hmem] at h
    rcases hloop : optimizeLoop
        (riskAt m sc fc oim (input_values readings))
        candidate_speeds 999 with ⟨o, low⟩
    rcases o with _ | s
    · rw [hloop] at h
      obtain rfl := (Except.ok.injEq _ _).mp h
      right; left; rfl
    · rw [hloop] at h
      obtain rfl := (Except.ok.injEq _ _).mp h
      left
      exact ((optimizeLoop_spec _ candidate_speeds 999
        candidate_speeds_sorted).1 s (by rw [hloop])).1
  · simp only [if_neg hmem] at h
    obtain rfl := (Except.ok.injEq _ _).mp h
    right; right; rfl

/-- The trial row has one entry per loaded feature column. -/
lemma trialVector_length (fc : List String) (vals : String → Option ℚ) :
    (trialVector fc vals).length = fc.length :=
  List.length_map _ _

/-- The value-accumulation fold equals a filter of the readings by the
column's sensor-id preimage. -/
lemma collectVals_aux (col : String) :
    ∀ (readings : List (ℤ × ℚ)) (acc : List ℚ),
      readings.foldl
        (fun acc p =>
          match id_to_type p.1 with
          | some t => if t = col then acc ++ [p.2] else acc
          | none => acc) acc =
      acc ++ (readings.filter fun p =>
        decide (id_to_type p.1 = some col)).map Prod.snd := by
  intro readings
  induction readings with
  | nil => intro acc; simp
  | cons p rest ih =>
    intro acc
    rcases hid : id_to_type p.1 with _ | t
    · simp [List.foldl_cons, hid, List.filter_cons, ih]
    · by_cases ht : t = col
      · subst ht
        simp [List.foldl_cons, hid, List.filter_cons, ih]
      · simp [List.foldl_cons, hid, ht, List.filter_cons, ih]

lemma collectVals_eq_filter (readings : List (ℤ × ℚ)) (col : String) :
    collectVals readings col =
      (readings.filter fun p =>
        decide (id_to_type p.1 = some col)).map Prod.snd := by
  simpa [collectVals] using collectVals_aux col readings []

/-! ### Theorems -/

/-- Claim C1: whenever the artifacts are loaded and `SPEED_LIMIT` is in
the feature list, the speed returned by the risk optimization is a
ladder element below the risk budget that dominates every ladder element
below the budget (hence the maximum such element) with status "Safe", or
exactly 60 with the high-risk status when no ladder element scores below
1.0 — never the loop's internal initial value 30, which lies in neither
case. -/
theorem C1_risk_search_maximum (m : List ℚ → ℚ) (sc : List ℚ → List ℚ)
    (fc : List String) (imp : Option (List (Option ℚ) → List ℚ))
    (readings : List (ℤ × ℚ)) (resp : SpeedLimitResponse)
    (hfc : "SPEED_LIMIT" ∈ fc)
    (h : find_safe_speed_limit
        { model := some m, scaler := some sc, feature_cols := some fc,
          imputer := imp } readings = Except.ok resp) :
    (resp.recommended_speed ∈ candidate_speeds ∧
      riskAt m sc fc imp (input_values readings) resp.recommended_speed < 1 ∧
      (∀ t ∈ candidate_speeds,
        riskAt m sc fc imp (input_values readings) t < 1 →
          t ≤ resp.recommended_speed) ∧
      resp.safety_status = "Safe") ∨
    ((∀ t ∈ candidate_speeds,
        ¬ riskAt m sc fc imp (input_values readings) t < 1) ∧
      resp.recommended_speed = 60 ∧
      resp.safety_status = "Risk High - Lowest Limit Selected") := by
  unfold find_safe_speed_limit at h
  simp only [if_pos hfc] at h
  rcases hloop : optimizeLoop
      (riskAt m sc fc imp (input_values readings)) candidate_speeds 999
    with ⟨o, low⟩
  rcases o with _ | s
  · rw [hloop] at h
    obtain rfl := (Except.ok.injEq _ _).mp h
    right
    exact ⟨(optimizeLoop_spec _ candidate_speeds 999
      candidate_speeds_sorted).2 (by rw [hloop]), rfl, rfl⟩
  · rw [hloop] at h
    obtain rfl := (Except.ok.injEq _ _).mp h
    left
    obtain ⟨hmem, hlt, hmax⟩ := (optimizeLoop_spec _ candidate_speeds 999
      candidate_speeds_sorted).1 s (by rw [hloop])
    exact ⟨hmem, hlt, hmax, rfl⟩

/-- Witness for C1: with a loaded bundle whose scoring function returns
the `SPEED_LIMIT` entry itself, every ladder candidate scores ≥ 1, and
the service answers 60 with the high-risk status. -/
theorem C1_risk_search_maximum_witness :
    (∀ t ∈ candidate_speeds,
      ¬ riskAt (fun xs => xs.headD 0) (fun v => v) ["SPEED_LIMIT"] none
          (input_values []) t < 1) ∧
    (60 : ℤ) = 60 ∧
    "Risk High - Lowest Limit Selected" = "Risk High - Lowest Limit Selected" := by
  have h := C1_risk_search_maximum (fun xs => xs.headD 0) (fun v => v)
    ["SPEED_LIMIT"] none []
    { recommended_speed := 60, predicted_risk := 60,
      safety_status := "Risk High - Lowest Limit Selected" }
    (by decide) (by rfl)
  rcases h with ⟨_, hlt, _, _⟩ | ⟨hall, _, _⟩
  · exact absurd hlt (by decide)
  · exact ⟨hall, rfl, rfl⟩

/-- Claim C2: for every triple (illuminance, waterDepth, temperature), the
router returns `requiresRiskModel = true` iff `illuminance < 500`
(strict) or (`waterDepth > 1000` and `temperature < 0`, strict on both);
the router is a pure total function (it is a Lean function into
`RouterDecision`, no failure mode), and when both rules fire the reason
lists the darkness description before the black-ice description. -/
theorem C2_router_thresholds (d : WeatherInput) :
    ((check_weather_conditions d).requires_neural_network = true ↔
      (d.illuminance_lux < 500 ∨
        (d.water_level_micrometers > 1000 ∧ d.temperature_celsius < 0))) ∧
    (d.illuminance_lux < 500 → d.water_level_micrometers > 1000 →
      d.temperature_celsius < 0 →
      (check_weather_conditions d).reason =
        [ReasonTag.darkness, ReasonTag.blackIce]) := by
  constructor
  · by_cases h1 : d.illuminance_lux < 500 <;>
      by_cases h2 : d.water_level_micrometers > 1000 <;>
      by_cases h3 : d.temperature_celsius < 0 <;>
      simp [check_weather_conditions, THRESHOLD_LUX, THRESHOLD_WATER,
        THRESHOLD_TEMP, h1, h2, h3]
  · intro h1 h2 h3
    simp [check_weather_conditions, THRESHOLD_LUX, THRESHOLD_WATER,
      THRESHOLD_TEMP, h1, h2, h3]

/-- Witness for C2: at lux 100, water 2000 µm, temperature −5 °C both
rules fire, the verdict is `true` and the darkness reason comes first. -/
theorem C2_router_thresholds_witness :
    (check_weather_conditions
        { illuminance_lux := 100, water_level_micrometers := 2000,
          temperature_celsius := -5 }).requires_neural_network = true ∧
    (check_weather_conditions
        { illuminance_lux := 100, water_level_micrometers := 2000,
          temperature_celsius := -5 }).reason =
      [ReasonTag.darkness, ReasonTag.blackIce] :=
  ⟨(C2_router_thresholds _).1.mpr (Or.inl (by norm_num)),
   (C2_router_thresholds _).2 (by norm_num) (by norm_num) (by norm_num)⟩

/-- Claim C4: whatever the completion provider's outcome, the policy agent
never raises past its boundary: a provider failure becomes the fixed
zero-reduction fallback decision, the service's response to the caller is
then the fallback with final limit 80, and the deployed air-quality
collaborator never reports a request failure to the controller. -/
theorem C4_policy_agent_fallback :
    (∀ e, get_speed_reduction (Except.error e) = fallbackDecision) ∧
    (∀ aqi e, calculate_reduction aqi (Except.error e) =
      { aqi_received := aqi, reduction_kmh := 0,
        reason := "Error connecting to AI Agent. Defaulting to safe baseline.",
        recommended_speed_limit := 80 }) ∧
    (∀ provider aqi, (aqServiceOf provider aqi).isOk = true) := by
  refine ⟨fun e => rfl, fun aqi e => rfl, fun provider aqi => rfl⟩

/-- Claim C5: for every integer reduction produced by the policy agent, the
final speed on the policy-agent branch is `max 30 (80 - reduction)`:
baseline 80, never below the hard floor 30. -/
theorem C5_final_speed_formula (aqi r : ℤ) (s : String) :
    (calculate_reduction aqi
        (Except.ok { reduction_kmh := r, reason := s })).recommended_speed_limit
      = max 30 (80 - r) ∧
    30 ≤ (calculate_reduction aqi
        (Except.ok { reduction_kmh := r, reason := s })).recommended_speed_limit := by
  exact ⟨rfl, le_max_left _ _⟩

/-- Claim C6 counterexample: with the artifacts loaded but `SPEED_LIMIT`
absent from the loaded feature list, the risk optimization does not fail:
it returns a success response with a defaulted speed of 80 — refuting the
claim that such a mismatch is a fatal, explicit error rather than a
silently defaulted success response. -/
theorem C6_counterexample :
    find_safe_speed_limit
        { model := some (fun xs => xs.headD 0), scaler := some (fun v => v),
          feature_cols := some ["X"], imputer := none } [] =
      Except.ok { recommended_speed := 80, predicted_risk := 0,
                  safety_status := "Error: SPEED_LIMIT missing in model" } ∧
    ¬ ∃ e, find_safe_speed_limit
        { model := some (fun xs => xs.headD 0), scaler := some (fun v => v),
          feature_cols := some ["X"], imputer := none } [] =
      Except.error e := by
  refine ⟨rfl, ?_⟩
  rintro ⟨e, he⟩
  simp [find_safe_speed_limit] at he

/-- Claim C6 as amended: the row fed to the imputer/scaler/scorer is laid
out in exactly the order of the loaded feature-column list; but when
`SPEED_LIMIT` is absent from that list the operation returns a *success*
response with the defaulted speed 80, risk 0 and a status string naming
the error — explicit in the status text, not a fatal request failure. -/
theorem C6_feature_order_and_mismatch :
    (∀ (m : List ℚ → ℚ) (sc : List ℚ → List ℚ) (fc : List String)
        (imp : Option (List (Option ℚ) → List ℚ)) (readings : List (ℤ × ℚ)),
      "SPEED_LIMIT" ∉ fc →
        find_safe_speed_limit
            { model := some m, scaler := some sc, feature_cols := some fc,
              imputer := imp } readings =
          Except.ok { recommended_speed := 80, predicted_risk := 0,
                      safety_status := "Error: SPEED_LIMIT missing in model" }) ∧
    (∀ (fc : List String) (vals : String → Option ℚ) (i : ℕ)
        (h : i < fc.length),
      (trialVector fc vals).get ⟨i, (trialVector_length fc vals).symm ▸ h⟩ =
        vals (fc.get ⟨i, h⟩)) := by
  constructor
  · intro m sc fc imp readings hni
    unfold find_safe_speed_limit
    simp only [if_neg hni]
  · intro fc vals i h
    simp [trialVector]

/-- Witness for C6: a loaded bundle whose feature list `["X"]` lacks
`SPEED_LIMIT` yields the defaulted success response, and on the list
`["A", "B"]` the second trial-row entry is the value of column `"B"`. -/
theorem C6_feature_order_and_mismatch_witness :
    find_safe_speed_limit
        { model := some (fun xs => xs.headD 0), scaler := some (fun v => v),
          feature_cols := some ["X"], imputer := none } [] =
      Except.ok { recommended_speed := 80, predicted_risk := 0,
                  safety_status := "Error: SPEED_LIMIT missing in model" } ∧
    (trialVector ["A", "B"]
        (fun c => if c = "A" then some 1 else none)).get ⟨1, by decide⟩ =
      none :=
  ⟨C6_feature_order_and_mismatch.1 (fun xs => xs.headD 0) (fun v => v)
    ["X"] none [] (by decide),
   C6_feature_order_and_mismatch.2 ["A", "B"]
    (fun c => if c = "A" then some 1 else none) 1 (by decide)⟩

/-- Claim C7: the risk optimization fails (with the 503
`"Service not ready"` error) iff the scoring function, the scaler, or the
feature list is not loaded; and a missing imputer alone is not an error:
with no imputer the computed risk coincides with the risk computed by an
imputer that zero-fills absent entries. -/
theorem C7_unavailable_iff_artifacts_missing :
    (∀ (arts : Artifacts) (readings : List (ℤ × ℚ)),
      (∃ e, find_safe_speed_limit arts readings = Except.error e) ↔
        (arts.model = none ∨ arts.scaler = none ∨ arts.feature_cols = none)) ∧
    (∀ (m : List ℚ → ℚ) (sc : List ℚ → List ℚ) (fc : List String)
        (vals : String → Option ℚ) (s : ℤ),
      riskAt m sc fc none vals s =
        riskAt m sc fc (some (fun xs => xs.map (fun x => x.getD 0))) vals s) := by
  constructor
  · intro arts readings
    obtain ⟨om, osc, ofc, oim⟩ := arts
    rcases om with _ | m
    · simp [find_safe_speed_limit]
    rcases osc with _ | sc
    · simp [find_safe_speed_limit]
    rcases ofc with _ | fc
    · simp [find_safe_speed_limit]
    constructor
    · rintro ⟨e, he⟩
      unfold find_safe_speed_limit at he
      by_cases hmem : "SPEED_LIMIT" ∈ fc
      · simp only [if_pos hmem] at he
        rcases hloop : optimizeLoop
            (riskAt m sc fc oim (input_values readings))
            candidate_speeds 999 with ⟨o, low⟩
        rw [hloop] at he
        rcases o with _ | s <;> simp at he
      · simp only [if_neg hmem] at he
        simp at he
    · rintro (h | h | h) <;> simp at h
  · intro m sc fc vals s
    rfl

/-- Claim C9: the sparse-readings reduction: each feature column's value is
the arithmetic mean of the readings whose sensor-id maps to that column's
type; the id → type table is exactly water={1,8,11}, light={2,9,12},
temperature={7,15,16,18}, noise={3,10}, humidity={4},
wind-direction={5,13}, wind-strength={6,14}, air-pressure={17}; readings
with unmapped ids are ignored without error; a column with no mapped
reading is absent (`none`, i.e. NaN awaiting imputation). -/
theorem C9_sensor_reduction :
    (∀ (readings : List (ℤ × ℚ)) (col : String),
      sensorMean readings col =
        (if ((readings.filter fun p =>
              decide (id_to_type p.1 = some col)).map Prod.snd) = [] then none
         else some (((readings.filter fun p =>
              decide (id_to_type p.1 = some col)).map Prod.snd).sum /
            ((readings.filter fun p =>
              decide (id_to_type p.1 = some col)).map Prod.snd).length))) ∧
    (∀ id : ℤ,
      (id_to_type id = some "W" ↔ id = 1 ∨ id = 8 ∨ id = 11) ∧
      (id_to_type id = some "L" ↔ id = 2 ∨ id = 9 ∨ id = 12) ∧
      (id_to_type id = some "T" ↔ id = 7 ∨ id = 15 ∨ id = 16 ∨ id = 18) ∧
      (id_to_type id = some "N" ↔ id = 3 ∨ id = 10) ∧
      (id_to_type id = some "H" ↔ id = 4) ∧
      (id_to_type id = some "WD" ↔ id = 5 ∨ id = 13) ∧
      (id_to_type id = some "WS" ↔ id = 6 ∨ id = 14) ∧
      (id_to_type id = some "AP" ↔ id = 17)) ∧
    (∀ (i : ℤ) (v : ℚ) (readings : List (ℤ × ℚ)) (col : String),
      id_to_type i = none →
        sensorMean ((i, v) :: readings) col = sensorMean readings col) ∧
    (∀ (readings : List (ℤ × ℚ)) (col : String),
      (∀ p ∈ readings, id_to_type p.1 ≠ some col) →
        sensorMean readings col = none) := by
  refine ⟨?_, ?_, ?_, ?_⟩
  · intro readings col
    simp only [sensorMean, collectVals_eq_filter]
  · intro id
    unfold id_to_type
    split_ifs <;> refine ⟨?_, ?_, ?_, ?_, ?_, ?_, ?_, ?_⟩ <;>
      simp_all <;> omega
  · intro i v readings col hid
    simp [sensorMean, collectVals, List.foldl_cons, hid]
  · intro readings col hall
    have hfil : (readings.filter fun p =>
        decide (id_to_type p.1 = some col)) = [] := by
      rw [List.filter_eq_nil_iff]
      intro p hp
      simpa using hall p hp
    simp [sensorMean, collectVals_eq_filter, hfil]

/-- Witness for C9: an unmapped sensor id (99) leaves the water-column
mean unchanged, and with no water reading the water column is absent. -/
theorem C9_sensor_reduction_witness :
    sensorMean [((99 : ℤ), (5 : ℚ)), (1, 4)] "W" = sensorMean [(1, 4)] "W" ∧
    sensorMean [((3 : ℤ), (2 : ℚ))] "W" = none :=
  ⟨C9_sensor_reduction.2.2.1 99 5 [(1, 4)] "W" (by decide),
   C9_sensor_reduction.2.2.2 [(3, 2)] "W" (by decide)⟩

/-- Claim C3 counterexample: with safe weather and a schema-valid provider
decision of reduction 25, the top-level decision succeeds with
`finalSpeedLimit = 55`, which is not in `{130,120,110,100,90,80,70,60,50,30}`
— refuting the claim for arbitrary schema-valid integer reductions. -/
theorem C3_counterexample :
    fullSystem
        { model := none, scaler := none, feature_cols := none,
          imputer := none }
        (fun _ => Except.ok { reduction_kmh := 25, reason := "policy" })
        { temperature_celsius := 15, water_level_micrometers := 0,
          illuminance_lux := 50000, aqi := 200 } =
      Except.ok
        { final_speed_limit := 55
          reason := "Weather is safe. Adjustment based on Air Quality: policy"
          source_service := "Air Quality Agent (LLM)" } ∧
    (55 : ℤ) ∉ ([130, 120, 110, 100, 90, 80, 70, 60, 50, 30] : List ℤ) := by
  exact ⟨rfl, by decide⟩

/-- Claim C3 as amended: every successful top-level decision has
`finalSpeedLimit ≥ 30`; on the risk-model branch `finalSpeedLimit` is
always a member of `{130,120,110,100,90,80,70,60,50,30}`, but on the
policy-agent branch it is `max 30 (80 - reduction)`, which for an
arbitrary schema-valid integer reduction need not lie in that set. -/
theorem C3_final_speed_invariant (arts : Artifacts)
    (provider : ℤ → Except String ReductionDecision) (u : UserInput)
    (d : FinalSystemDecision)
    (h : fullSystem arts provider u = Except.ok d) :
    30 ≤ d.final_speed_limit ∧
    (d.source_service = "Neural Network Inference" →
      d.final_speed_limit ∈
        ([130, 120, 110, 100, 90, 80, 70, 60, 50, 30] : List ℤ)) := by
  unfold fullSystem decide_speed_limit at h
  simp only [routerServiceOf, Option.getD_some] at h
  cases hv : (check_weather_conditions
      { illuminance_lux := u.illuminance_lux
        water_level_micrometers := u.water_level_micrometers
        temperature_celsius := u.temperature_celsius }).requires_neural_network with
  | false =>
    rw [hv] at h
    simp only [if_neg (by simp : ¬ (false = true))] at h
    simp only [aqServiceOf] at h
    obtain rfl := (Except.ok.injEq _ _).mp h
    constructor
    · exact le_max_left _ _
    · intro hc
      simp at hc
  | true =>
    rw [hv] at h
    rcases hres : find_safe_speed_limit arts (map_input_to_sensors u)
      with e | r
    · simp [inferenceServiceOf, hres] at h
    · simp only [inferenceServiceOf, hres, if_true] at h
      obtain rfl := (Except.ok.injEq _ _).mp h
      have hmem := find_safe_ok_speed_mem arts (map_input_to_sensors u) r hres
      have hm' : r.recommended_speed = 130 ∨ r.recommended_speed = 120 ∨
          r.recommended_speed = 110 ∨ r.recommended_speed = 100 ∨
          r.recommended_speed = 90 ∨ r.recommended_speed = 80 ∨
          r.recommended_speed = 70 ∨ r.recommended_speed = 60 := by
        rcases hmem with hm | hm | hm
        · simpa [candidate_speeds] using hm
        · simp [hm]
        · simp [hm]
      refine ⟨?_, fun _ => ?_⟩ <;> dsimp only <;>
        rcases hm' with h' | h' | h' | h' | h' | h' | h' | h' <;> simp [h']

/-- Witness for C3 (amended): safe weather and a zero-reduction provider
give the baseline decision 80 from the policy agent, which is ≥ 30. -/
theorem C3_final_speed_invariant_witness :
    30 ≤ (80 : ℤ) ∧
    ("Air Quality Agent (LLM)" = "Neural Network Inference" →
      (80 : ℤ) ∈ ([130, 120, 110, 100, 90, 80, 70, 60, 50, 30] : List ℤ)) :=
  C3_final_speed_invariant
    { model := none, scaler := none, feature_cols := none, imputer := none }
    (fun _ => Except.ok { reduction_kmh := 0, reason := "ok" })
    { temperature_celsius := 15, water_level_micrometers := 0,
      illuminance_lux := 50000, aqi := 20 }
    { final_speed_limit := 80
      reason := "Weather is safe. Adjustment based on Air Quality: ok"
      source_service := "Air Quality Agent (LLM)" }
    (by rfl)

/-- Claim C8: two requests agreeing on temperature, water level and
illuminance whose shared weather triple yields a `true` router verdict
produce identical recommendations whatever their AQI values: the
risk-model branch never consults AQI. -/
theorem C8_risk_branch_ignores_aqi
    (routerCall : WeatherInput → Except String RouterJson)
    (inferenceCall : List (ℤ × ℚ) → Except String (ℤ × String))
    (aqCall : ℤ → Except String (ℤ × String))
    (u1 u2 : UserInput) (rd : RouterJson)
    (htemp : u1.temperature_celsius = u2.temperature_celsius)
    (hwater : u1.water_level_micrometers = u2.water_level_micrometers)
    (hlux : u1.illuminance_lux = u2.illuminance_lux)
    (hr : routerCall
        { illuminance_lux := u1.illuminance_lux
          water_level_micrometers := u1.water_level_micrometers
          temperature_celsius := u1.temperature_celsius } = Except.ok rd)
    (htrue : rd.requires_neural_network.getD false = true) :
    decide_speed_limit routerCall inferenceCall aqCall u1 =
      decide_speed_limit routerCall inferenceCall aqCall u2 := by
  have hmap : map_input_to_sensors u1 = map_input_to_sensors u2 := by
    simp [map_input_to_sensors, htemp, hwater, hlux]
  have hw : ({ illuminance_lux := u2.illuminance_lux
               water_level_micrometers := u2.water_level_micrometers
               temperature_celsius := u2.temperature_celsius } : WeatherInput) =
      { illuminance_lux := u1.illuminance_lux
        water_level_micrometers := u1.water_level_micrometers
        temperature_celsius := u1.temperature_celsius } := by
    rw [htemp, hwater, hlux]
  unfold decide_speed_limit
  rw [hw, hr]
  simp [htrue, hmap]

/-- Witness for C8: with a verdict-true router, requests with AQI 20 and
AQI 200 on the same black-ice weather get identical decisions. -/
theorem C8_risk_branch_ignores_aqi_witness :
    decide_speed_limit
        (fun _ => Except.ok { requires_neural_network := some true,
                              reason := some "hazard" })
        (fun _ => Except.ok ((70 : ℤ), "Safe"))
        (fun _ => Except.ok ((80 : ℤ), "baseline"))
        { temperature_celsius := -5, water_level_micrometers := 2000,
          illuminance_lux := 100, aqi := 20 } =
      decide_speed_limit
        (fun _ => Except.ok { requires_neural_network := some true,
                              reason := some "hazard" })
        (fun _ => Except.ok ((70 : ℤ), "Safe"))
        (fun _ => Except.ok ((80 : ℤ), "baseline"))
        { temperature_celsius := -5, water_level_micrometers := 2000,
          illuminance_lux := 100, aqi := 200 } :=
  C8_risk_branch_ignores_aqi _ _ _ _ _
    { requires_neural_network := some true, reason := some "hazard" }
    rfl rfl rfl rfl rfl

/-- Claim C10: a parseable router body lacking the
`requires_neural_network` field does not fail the request: the controller
defaults the verdict to `false`, never consults the inference
collaborator, and produces the recommendation through the policy agent.
(The defaulted `"Unknown"` reason placeholder is not observable on this
branch: the policy-branch reason text does not include it.) -/
theorem C10_missing_field_defaults_to_policy
    (routerCall : WeatherInput → Except String RouterJson)
    (inferenceCall : List (ℤ × ℚ) → Except String (ℤ × String))
    (aqCall : ℤ → Except String (ℤ × String))
    (u : UserInput) (rd : RouterJson)
    (hr : routerCall
        { illuminance_lux := u.illuminance_lux
          water_level_micrometers := u.water_level_micrometers
          temperature_celsius := u.temperature_celsius } = Except.ok rd)
    (hmiss : rd.requires_neural_network = none) :
    (∀ inferenceCall',
      decide_speed_limit routerCall inferenceCall aqCall u =
        decide_speed_limit routerCall inferenceCall' aqCall u) ∧
    (∀ limit reason, aqCall u.aqi = Except.ok (limit, reason) →
      decide_speed_limit routerCall inferenceCall aqCall u =
        Except.ok
          { final_speed_limit := limit
            reason := "Weather is safe. Adjustment based on Air Quality: " ++
              reason
            source_service := "Air Quality Agent (LLM)" }) := by
  constructor
  · intro inferenceCall'
    unfold decide_speed_limit
    rw [hr]
    simp [hmiss]
  · intro limit reason haq
    unfold decide_speed_limit
    rw [hr]
    simp [hmiss, haq]

/-- Witness for C10: a router body with neither field set sends the
request to the policy agent, whose answer 80 is returned, even while the
inference collaborator is down. -/
theorem C10_missing_field_defaults_to_policy_witness :
    decide_speed_limit
        (fun _ => Except.ok { requires_neural_network := none,
                              reason := none })
        (fun _ => Except.error "down")
        (fun _ => Except.ok ((80 : ℤ), "ok"))
        { temperature_celsius := 15, water_level_micrometers := 0,
          illuminance_lux := 50000, aqi := 20 } =
      decide_speed_limit
        (fun _ => Except.ok { requires_neural_network := none,
                              reason := none })
        (fun _ => Except.ok ((70 : ℤ), "Safe"))
        (fun _ => Except.ok ((80 : ℤ), "ok"))
        { temperature_celsius := 15, water_level_micrometers := 0,
          illuminance_lux := 50000, aqi := 20 } ∧
    decide_speed_limit
        (fun _ => Except.ok { requires_neural_network := none,
                              reason := none })
        (fun _ => Except.error "down")
        (fun _ => Except.ok ((80 : ℤ), "ok"))
        { temperature_celsius := 15, water_level_micrometers := 0,
          illuminance_lux := 50000, aqi := 20 } =
      Except.ok
        { final_speed_limit := (80 : ℤ)
          reason := "Weather is safe. Adjustment based on Air Quality: " ++
            "ok"
          source_service := "Air Quality Agent (LLM)" } :=
  ⟨(C10_missing_field_defaults_to_policy _ _ _ _
      { requires_neural_network := none, reason := none } rfl rfl).1
    (fun _ => Except.ok ((70 : ℤ), "Safe")),
   (C10_missing_field_defaults_to_policy _ _ _ _
      { requires_neural_network := none, reason := none } rfl rfl).2
    80 "ok" rfl⟩

end SpeedLimit
